import Mathlib

/-!
Verification of the mcpc session-bridge subsystem (apify/mcp-cli).

This file shallowly embeds the parts of the TypeScript source that the
frozen claims are about, and proves or refutes each claim.

Conventions of the embedding:
* JavaScript objects with string keys become association lists
  `List (String × _)` with unique keys (JSON objects cannot have
  duplicate keys); insertion order is preserved, as in V8.
* `undefined` / absent optional fields become `Option.none`.
* JavaScript truthiness is modelled explicitly where the source relies
  on it (`!session`, `session.pid && …`, `x || y`).
* Clock values (`Date.now()`) are explicit `Int` parameters
  (milliseconds, or unix seconds where the source divides by 1000).
* Process liveness (`isProcessAlive`), the platform check
  (`process.platform !== 'win32'`) and HTTP responses are explicit
  parameters: they are environment inputs of the embedded functions.
-/

namespace Mcpc

/-! ## String helpers

Executable substring search used to model `String.prototype.includes`
and the regular-expression matching of the session-expiry detector. -/

/-- Substring test on character lists: does `pat` occur inside `hay`? -/
def containsSub : List Char → List Char → Bool
  | [], pat => pat.isEmpty
  | c :: t, pat => pat.isPrefixOf (c :: t) || containsSub t pat

/-- Model of `String.prototype.includes(pat)`. -/
def strContains (s pat : String) : Bool :=
  containsSub s.toList pat.toList

/-- The suffix of `hay` that follows the first occurrence of `pat`,
if `pat` occurs at all. -/
def suffixAfter : List Char → List Char → Option (List Char)
  | [], pat => if pat.isEmpty then some [] else none
  | c :: t, pat =>
    if pat.isPrefixOf (c :: t) then some ((c :: t).drop pat.length)
    else suffixAfter t pat

/-! ## Session-expiry detection (`isSessionExpiredError`)

The implementation of `isSessionExpiredError` lives in `src/lib/utils.ts`,
which is not among the provided source files; only its unit tests
(`test/unit/bridge/session-expiration.test.ts`) are. -/

/-- Lowercase a string into its character list (models the
`message.toLowerCase()` step of the detector; kept on `List Char` so the
kernel can evaluate it). -/
def lowerChars (s : String) : List Char :=
  s.toList.map Char.toLower

/-- Does the lowercased message contain `"session"` followed (with an
arbitrary gap) by `"not found"`?  Models the spec pattern
`session … not found`. -/
def sessionGapNotFound (m : List Char) : Bool :=
  match suffixAfter m "session".toList with
  | some rest => containsSub rest "not found".toList
  | none => false

/-- Modelled from the spec: `isSessionExpiredError` (its body lives in
`src/lib/utils.ts`, which is missing from the provided sources; only its
unit tests are present).  Spec §4.3.1: session expiry is detected by a
message matching any of "session not found", "session … not found",
"session expired", "invalid session", "session is no longer valid"
(case-insensitively), or an HTTP 404 message without the word "tool". -/
def isSessionExpiredError (message : String) : Bool :=
  let m := lowerChars message
  if containsSub m "session not found".toList then true
  else if sessionGapNotFound m then true
  else if containsSub m "session expired".toList then true
  else if containsSub m "invalid session".toList then true
  else if containsSub m "session is no longer valid".toList then true
  else if containsSub m "404".toList && !containsSub m "tool".toList then true
  else false

/-- The claim-side characterization: the five session-message patterns,
as one boolean disjunction over the lowercased message. -/
def sessionExpiredPattern (message : String) : Bool :=
  let m := lowerChars message
  containsSub m "session not found".toList || sessionGapNotFound m ||
    containsSub m "session expired".toList ||
    containsSub m "invalid session".toList ||
    containsSub m "session is no longer valid".toList

/-- C2: the session-expiry detector returns true exactly for messages
matching one of the five session patterns (case-insensitively) or
containing "404" without the word "tool"; in particular it agrees with
every case of the unit-test suite in
`test/unit/bridge/session-expiration.test.ts` (lines 7–105). -/
theorem isSessionExpiredError_spec :
    (∀ message : String,
        isSessionExpiredError message =
          (sessionExpiredPattern message ||
            (containsSub (lowerChars message) "404".toList &&
              !containsSub (lowerChars message) "tool".toList))) ∧
    (isSessionExpiredError "session not found" = true ∧
      isSessionExpiredError "Session not found" = true ∧
      isSessionExpiredError "SESSION NOT FOUND" = true ∧
      isSessionExpiredError
        "Bad Request: Session ID 334c4cc0-ea1a-49f5-89a6-13bbe29b17d6 not found" = true ∧
      isSessionExpiredError "Session ID abc123 not found" = true ∧
      isSessionExpiredError "session id test-session not found" = true ∧
      isSessionExpiredError "session abc123 not found" = true ∧
      isSessionExpiredError "Session test-session not found" = true ∧
      isSessionExpiredError "session expired" = true ∧
      isSessionExpiredError "Your session expired" = true ∧
      isSessionExpiredError "Session Expired" = true ∧
      isSessionExpiredError "invalid session" = true ∧
      isSessionExpiredError "Invalid session ID" = true ∧
      isSessionExpiredError "Error: invalid session" = true ∧
      isSessionExpiredError "session is no longer valid" = true ∧
      isSessionExpiredError "Your session is no longer valid" = true ∧
      isSessionExpiredError "404 Not Found" = true ∧
      isSessionExpiredError "HTTP 404" = true ∧
      isSessionExpiredError "Error: 404" = true) ∧
    (isSessionExpiredError "404 tool not found" = false ∧
      isSessionExpiredError "Tool xyz not found (404)" = false ∧
      isSessionExpiredError "Error 404: tool does not exist" = false ∧
      isSessionExpiredError "Connection refused" = false ∧
      isSessionExpiredError "Network error" = false ∧
      isSessionExpiredError "Timeout" = false ∧
      isSessionExpiredError "Internal server error" = false ∧
      isSessionExpiredError "resource not found" = false ∧
      isSessionExpiredError "file not found" = false ∧
      isSessionExpiredError "user not found" = false ∧
      isSessionExpiredError "" = false ∧
      isSessionExpiredError "   " = false) ∧
    (isSessionExpiredError "  session not found  " = true ∧
      isSessionExpiredError "  session expired  " = true ∧
      isSessionExpiredError
        "Streamable HTTP error: Error POSTing to endpoint: \x7b\"jsonrpc\":\"2.0\",\"error\":\x7b\"code\":-32000,\"message\":\"Bad Request: Session ID 334c4cc0-ea1a-49f5-89a6-13bbe29b17d6 not found\"\x7d,\"id\":null\x7d" = true ∧
      isSessionExpiredError "SESSION EXPIRED" = true ∧
      isSessionExpiredError "INVALID SESSION" = true ∧
      isSessionExpiredError "SESSION IS NO LONGER VALID" = true ∧
      isSessionExpiredError "SESSION ID ABC NOT FOUND" = true) := by
  refine ⟨fun message => ?_, by decide, by decide, by decide⟩
  simp only [isSessionExpiredError, sessionExpiredPattern]
  split_ifs <;> simp_all

/-! ## Session registry data model (`src/lib/sessions.ts`, spec §3)

The `SessionData` record.  Fields not touched by any embedded operation
are omitted; `status` is an optional string because records loaded from
`sessions.json` need not carry one.  `notifications.{tools|prompts|
resources}.listChangedAt` timestamps are kept as strings. -/

/-- Per-kind notification data: `{ listChangedAt?: string }`. -/
structure NotifKind where
  listChangedAt : Option String
deriving Repr, DecidableEq

/-- The `notifications` field of a session record. -/
structure Notifications where
  tools : Option NotifKind
  prompts : Option NotifKind
  resources : Option NotifKind
deriving Repr, DecidableEq

/-- A session record (`SessionData`). -/
structure SessionData where
  name : String
  pid : Option Nat
  status : Option String
  socketPath : Option String
  mcpSessionId : Option String
  notifications : Option Notifications
  createdAt : Option String
deriving Repr, DecidableEq

/-- The sessions map `{sessions: {name: record}}`, as an association
list with unique keys.  A value `none` models a `null` entry in the
JSON file (the `!session` check in `consolidateSessions`). -/
abbrev Registry := List (String × Option SessionData)

/-- Property access `storage.sessions[name]`, `none` when the key is
absent. -/
def regFind (reg : Registry) (name : String) : Option (Option SessionData) :=
  match reg with
  | [] => none
  | (k, v) :: rest => if k = name then some v else regFind rest name

/-- The record stored under `name`, flattening a `null` entry to `none`
(`null` and `undefined` are both falsy wherever the source checks the
result). -/
def lookupSession (reg : Registry) (name : String) : Option SessionData :=
  match regFind reg name with
  | some (some s) => some s
  | _ => none

/-- Overwrite the value stored under `name`, keeping key order. -/
def replaceEntry : Registry → String → Option SessionData → Registry
  | [], _, _ => []
  | (k, w) :: rest, name, v =>
    if k = name then (name, v) :: replaceEntry rest name v
    else (k, w) :: replaceEntry rest name v

/-- Assignment `storage.sessions[name] = v`: overwrites an existing key
in place, otherwise appends (JavaScript object key order). -/
def setEntry (reg : Registry) (name : String) (v : Option SessionData) : Registry :=
  if (regFind reg name).isSome then replaceEntry reg name v
  else reg ++ [(name, v)]

/-- `delete storage.sessions[name]`. -/
def delEntry (reg : Registry) (name : String) : Registry :=
  reg.filter fun kv => decide (kv.1 ≠ name)

/-! ## `consolidateSessions` (src/lib/sessions.ts lines 240–327)

`alive` models `isProcessAlive`, `win32` models
`process.platform === 'win32'`; both are environment inputs.  The
keychain removals and socket unlinks performed for each expired session
are recorded as lists of session names. -/

/-- JavaScript truthiness of the `pid` field (`session.pid && …`;
pid `0` is falsy). -/
def pidTruthy : Option Nat → Bool
  | some p => p != 0
  | none => false

/-- The condition `session.pid && !isProcessAlive(session.pid)`. -/
def pidDead (alive : Nat → Bool) : Option Nat → Bool
  | some p => p != 0 && !alive p
  | none => false

/-- Result of `consolidateSessions`, together with the external effects
it performs (keychain removals, socket unlinks). -/
structure ConsolidateResult where
  crashedBridges : Nat
  expiredSessions : Nat
  sessions : Registry
  removedHeaderEntries : List String
  removedBearerEntries : List String
  removedSockets : List String
deriving Repr, DecidableEq

/-- `consolidateSessions(cleanExpired)`: flag sessions as `crashed`
when their bridge process is not alive, remove `expired` (and `null`)
records when `cleanExpired` is set, cleaning up their socket file and
Secret-Store entries. -/
def consolidateSessions (cleanExpired : Bool) (alive : Nat → Bool) (win32 : Bool) :
    Registry → ConsolidateResult
  | [] => ⟨0, 0, [], [], [], []⟩
  | (name, osession) :: rest =>
    let r := consolidateSessions cleanExpired alive win32 rest
    match osession with
    | none => r
    | some session =>
      if cleanExpired ∧ session.status = some "expired" then
        { r with
          expiredSessions := r.expiredSessions + 1
          removedHeaderEntries := name :: r.removedHeaderEntries
          removedBearerEntries := name :: r.removedBearerEntries
          removedSockets := if win32 then r.removedSockets else name :: r.removedSockets }
      else if pidDead alive session.pid then
        if session.status ≠ some "crashed" ∧ session.status ≠ some "expired" then
          { r with
            crashedBridges := r.crashedBridges + 1
            sessions := (name, some { session with pid := none, status := some "crashed" }) :: r.sessions }
        else
          { r with sessions := (name, some { session with pid := none }) :: r.sessions }
      else if ¬ pidTruthy session.pid ∧ session.status ≠ some "crashed" ∧
          session.status ≠ some "expired" then
        { r with
          crashedBridges := r.crashedBridges + 1
          sessions := (name, some { session with status := some "crashed" }) :: r.sessions }
      else
        { r with sessions := (name, some session) :: r.sessions }

/-- The per-entry transformation of the consolidation loop: the entry
that survives in `sessions` (updated), or `none` when it is removed. -/
def keepEntry (cleanExpired : Bool) (alive : Nat → Bool) :
    String × Option SessionData → Option (String × Option SessionData)
  | (_, none) => none
  | (name, some session) =>
    if cleanExpired ∧ session.status = some "expired" then none
    else if pidDead alive session.pid then
      if session.status ≠ some "crashed" ∧ session.status ≠ some "expired" then
        some (name, some { session with pid := none, status := some "crashed" })
      else
        some (name, some { session with pid := none })
    else if ¬ pidTruthy session.pid ∧ session.status ≠ some "crashed" ∧
        session.status ≠ some "expired" then
      some (name, some { session with status := some "crashed" })
    else
      some (name, some session)

/-- A record is newly marked `crashed` by the loop: it is not removed
as expired, its previous status was neither `crashed` nor `expired`,
and it has no live bridge pid. -/
def newlyCrashed (cleanExpired : Bool) (alive : Nat → Bool) :
    String × Option SessionData → Bool
  | (_, none) => false
  | (_, some session) =>
    if cleanExpired ∧ session.status = some "expired" then false
    else if pidDead alive session.pid then
      decide (session.status ≠ some "crashed" ∧ session.status ≠ some "expired")
    else if ¬ pidTruthy session.pid ∧ session.status ≠ some "crashed" ∧
        session.status ≠ some "expired" then true
    else false

/-- A record is removed as expired by the loop. -/
def expiredRemoved (cleanExpired : Bool) : String × Option SessionData → Bool
  | (_, none) => false
  | (_, some session) => cleanExpired ∧ session.status = some "expired"

lemma consolidate_sessions_eq (ce : Bool) (alive : Nat → Bool) (win32 : Bool)
    (ss : Registry) :
    (consolidateSessions ce alive win32 ss).sessions = ss.filterMap (keepEntry ce alive) := by
  induction ss with
  | nil => rfl
  | cons e rest ih =>
    obtain ⟨name, osession⟩ := e
    cases osession with
    | none => simpa [consolidateSessions, keepEntry] using ih
    | some session =>
      simp only [consolidateSessions, keepEntry, List.filterMap_cons]
      split_ifs <;> simp [ih]

lemma consolidate_crashed_eq (ce : Bool) (alive : Nat → Bool) (win32 : Bool)
    (ss : Registry) :
    (consolidateSessions ce alive win32 ss).crashedBridges =
      ss.countP (newlyCrashed ce alive) := by
  induction ss with
  | nil => rfl
  | cons e rest ih =>
    obtain ⟨name, osession⟩ := e
    cases osession with
    | none => simpa [consolidateSessions, newlyCrashed] using ih
    | some session =>
      simp only [consolidateSessions, newlyCrashed, List.countP_cons]
      split_ifs <;> simp_all

lemma consolidate_expired_eq (ce : Bool) (alive : Nat → Bool) (win32 : Bool)
    (ss : Registry) :
    (consolidateSessions ce alive win32 ss).expiredSessions =
      ss.countP (expiredRemoved ce) := by
  induction ss with
  | nil => rfl
  | cons e rest ih =>
    obtain ⟨name, osession⟩ := e
    cases osession with
    | none => simpa [consolidateSessions, expiredRemoved] using ih
    | some session =>
      simp only [consolidateSessions, expiredRemoved, List.countP_cons]
      split_ifs <;> simp_all [expiredRemoved]

lemma consolidate_headers_eq (ce : Bool) (alive : Nat → Bool) (win32 : Bool)
    (ss : Registry) :
    (consolidateSessions ce alive win32 ss).removedHeaderEntries =
      (ss.filter (expiredRemoved ce)).map Prod.fst := by
  induction ss with
  | nil => rfl
  | cons e rest ih =>
    obtain ⟨name, osession⟩ := e
    cases osession with
    | none => simpa [consolidateSessions, expiredRemoved] using ih
    | some session =>
      simp only [consolidateSessions, expiredRemoved, List.filter_cons]
      split_ifs <;> simp_all [expiredRemoved]

lemma consolidate_bearer_eq (ce : Bool) (alive : Nat → Bool) (win32 : Bool)
    (ss : Registry) :
    (consolidateSessions ce alive win32 ss).removedBearerEntries =
      (ss.filter (expiredRemoved ce)).map Prod.fst := by
  induction ss with
  | nil => rfl
  | cons e rest ih =>
    obtain ⟨name, osession⟩ := e
    cases osession with
    | none => simpa [consolidateSessions, expiredRemoved] using ih
    | some session =>
      simp only [consolidateSessions, expiredRemoved, List.filter_cons]
      split_ifs <;> simp_all [expiredRemoved]

lemma consolidate_sockets_eq (ce : Bool) (alive : Nat → Bool) (win32 : Bool)
    (ss : Registry) :
    (consolidateSessions ce alive win32 ss).removedSockets =
      if win32 then [] else (ss.filter (expiredRemoved ce)).map Prod.fst := by
  induction ss with
  | nil => cases win32 <;> rfl
  | cons e rest ih =>
    obtain ⟨name, osession⟩ := e
    cases osession with
    | none =>
      simp only [consolidateSessions]
      simpa [expiredRemoved] using ih
    | some session =>
      simp only [consolidateSessions, expiredRemoved, List.filter_cons]
      split_ifs <;> simp_all [expiredRemoved]

lemma keepEntry_fst (ce : Bool) (alive : Nat → Bool) (e : String × Option SessionData)
    (x : String × Option SessionData) (hx : keepEntry ce alive e = some x) :
    x.1 = e.1 := by
  obtain ⟨name, osession⟩ := e
  cases osession with
  | none => simp [keepEntry] at hx
  | some session =>
    simp only [keepEntry] at hx
    split_ifs at hx <;>
      first
      | exact Option.noConfusion hx
      | exact (congrArg Prod.fst (Option.some.inj hx)).symm

lemma snd_eq_of_nodup_keys {α β : Type} [DecidableEq α] (l : List (α × β))
    (h : (l.map Prod.fst).Nodup) {a : α} {b c : β}
    (h1 : (a, b) ∈ l) (h2 : (a, c) ∈ l) : b = c := by
  induction l with
  | nil => cases h1
  | cons e rest ih =>
    simp only [List.map_cons, List.nodup_cons] at h
    rcases List.mem_cons.mp h1 with h1 | h1 <;>
      rcases List.mem_cons.mp h2 with h2 | h2
    · exact congrArg Prod.snd (h1.trans h2.symm)
    · exfalso
      apply h.1
      have hm : (a, c).1 ∈ rest.map Prod.fst := List.mem_map_of_mem Prod.fst h2
      rw [← h1]
      exact hm
    · exfalso
      apply h.1
      have hm : (a, b).1 ∈ rest.map Prod.fst := List.mem_map_of_mem Prod.fst h1
      rw [← h2]
      exact hm
    · exact ih h.2 h1 h2

/-- C1: after `consolidateSessions(cleanExpired)`, every surviving record
whose bridge pid was not alive has its `pid` cleared, and its status is
`crashed` unless it was already `expired` (an `expired` status is never
overwritten); the returned `crashedBridges` equals the number of records
newly marked `crashed`. -/
theorem consolidateSessions_dead_pid_spec
    (ce : Bool) (alive : Nat → Bool) (win32 : Bool) (ss : Registry)
    (hnd : (ss.map Prod.fst).Nodup)
    (name : String) (s : SessionData) (p : Nat)
    (hin : (name, some s) ∈ ss) (hp : s.pid = some p) (hp0 : p ≠ 0)
    (hdead : alive p = false) :
    (∀ s' : SessionData,
        (name, some s') ∈ (consolidateSessions ce alive win32 ss).sessions →
          s'.pid = none ∧
            (s.status = some "expired" → s'.status = some "expired") ∧
            (s.status ≠ some "expired" → s'.status = some "crashed")) ∧
    (consolidateSessions ce alive win32 ss).crashedBridges =
      ss.countP (newlyCrashed ce alive) := by
  refine ⟨?_, consolidate_crashed_eq ce alive win32 ss⟩
  intro s' hmem
  rw [consolidate_sessions_eq] at hmem
  rcases List.mem_filterMap.mp hmem with ⟨e, hein, hke⟩
  have hefst : (name, some s').1 = e.1 := keepEntry_fst ce alive e _ hke
  obtain ⟨ename, eval⟩ := e
  have hname : ename = name := by simpa using hefst.symm
  subst hname
  have heq : eval = some s := snd_eq_of_nodup_keys ss hnd hein hin
  subst heq
  have hpd : pidDead alive s.pid = true := by
    simp [pidDead, hp, hdead, hp0]
  simp only [keepEntry, hpd] at hke
  split_ifs at hke with hexp hnc
  · have hrec := Option.some.inj (congrArg Prod.snd (Option.some.inj hke))
    refine ⟨by simp [← hrec], fun habs => absurd habs hnc.2, fun _ => by simp [← hrec]⟩
  · have hrec := Option.some.inj (congrArg Prod.snd (Option.some.inj hke))
    rcases not_and_or.mp hnc with hc | he
    · have hc : s.status = some "crashed" := not_not.mp hc
      exact ⟨by simp [← hrec], fun habs => by simp [hc] at habs,
        fun _ => by simp [← hrec, hc]⟩
    · have he : s.status = some "expired" := not_not.mp he
      exact ⟨by simp [← hrec], fun _ => by simp [← hrec, he],
        fun habs => absurd he habs⟩

/-- C1 witness: a registry with one live-marked record whose pid 42 is
dead and one record without a pid. -/
theorem consolidateSessions_dead_pid_spec_witness :
    (∀ s' : SessionData,
        ("@a", some s') ∈
            (consolidateSessions false (fun _ => false) false
              [("@a", some ⟨"@a", some 42, some "live", none, none, none, none⟩),
               ("@b", some ⟨"@b", none, some "crashed", none, none, none, none⟩)]).sessions →
          s'.pid = none ∧
            ((⟨"@a", some 42, some "live", none, none, none, none⟩ : SessionData).status =
                some "expired" → s'.status = some "expired") ∧
            ((⟨"@a", some 42, some "live", none, none, none, none⟩ : SessionData).status ≠
                some "expired" → s'.status = some "crashed")) ∧
    (consolidateSessions false (fun _ => false) false
        [("@a", some ⟨"@a", some 42, some "live", none, none, none, none⟩),
         ("@b", some ⟨"@b", none, some "crashed", none, none, none, none⟩)]).crashedBridges =
      List.countP (newlyCrashed false (fun _ => false))
        [("@a", some ⟨"@a", some 42, some "live", none, none, none, none⟩),
         ("@b", some ⟨"@b", none, some "crashed", none, none, none, none⟩)] :=
  consolidateSessions_dead_pid_spec false (fun _ => false) false
    [("@a", some ⟨"@a", some 42, some "live", none, none, none, none⟩),
     ("@b", some ⟨"@b", none, some "crashed", none, none, none, none⟩)]
    (by decide) "@a" ⟨"@a", some 42, some "live", none, none, none, none⟩ 42
    (by decide) rfl (by decide) rfl

/-- C3: with `cleanExpired = true` every record whose status is
`expired` is removed together with its socket file (on non-Windows) and
its Secret-Store entries (session headers and proxy bearer token), and
`expiredSessions` counts the removed records; with
`cleanExpired = false` such records are kept. -/
theorem consolidateSessions_cleanExpired_spec
    (alive : Nat → Bool) (win32 : Bool) (ss : Registry)
    (hnd : (ss.map Prod.fst).Nodup)
    (name : String) (s : SessionData)
    (hin : (name, some s) ∈ ss) (hexp : s.status = some "expired") :
    name ∉ ((consolidateSessions true alive win32 ss).sessions.map Prod.fst) ∧
    name ∈ (consolidateSessions true alive win32 ss).removedHeaderEntries ∧
    name ∈ (consolidateSessions true alive win32 ss).removedBearerEntries ∧
    (win32 = false → name ∈ (consolidateSessions true alive win32 ss).removedSockets) ∧
    (consolidateSessions true alive win32 ss).expiredSessions =
      ss.countP (expiredRemoved true) ∧
    (∃ s' : SessionData,
        (name, some s') ∈ (consolidateSessions false alive win32 ss).sessions) := by
  have hfil : (name, some s) ∈ ss.filter (expiredRemoved true) :=
    List.mem_filter.mpr ⟨hin, by simp [expiredRemoved, hexp]⟩
  refine ⟨?_, ?_, ?_, ?_, consolidate_expired_eq true alive win32 ss, ?_⟩
  · rw [consolidate_sessions_eq]
    intro hmem
    rcases List.mem_map.mp hmem with ⟨x, hx, hxname⟩
    rcases List.mem_filterMap.mp hx with ⟨e, hein, hke⟩
    have hefst : x.1 = e.1 := keepEntry_fst true alive e _ hke
    obtain ⟨ename, eval⟩ := e
    have hname : ename = name := by
      have := hxname.symm.trans hefst
      simpa using this.symm
    subst hname
    have heq : eval = some s := snd_eq_of_nodup_keys ss hnd hein hin
    subst heq
    simp [keepEntry, hexp] at hke
  · rw [consolidate_headers_eq]
    exact List.mem_map_of_mem Prod.fst hfil
  · rw [consolidate_bearer_eq]
    exact List.mem_map_of_mem Prod.fst hfil
  · intro hw
    rw [consolidate_sockets_eq, hw]
    simpa using List.mem_map_of_mem Prod.fst hfil
  · rw [consolidate_sessions_eq]
    by_cases hpd : pidDead alive s.pid = true
    · exact ⟨{ s with pid := none }, List.mem_filterMap.mpr
        ⟨(name, some s), hin, by simp [keepEntry, hexp, hpd]⟩⟩
    · exact ⟨s, List.mem_filterMap.mpr
        ⟨(name, some s), hin, by simp [keepEntry, hexp, hpd]⟩⟩

/-- C3 witness: one expired record and one live record. -/
theorem consolidateSessions_cleanExpired_spec_witness :
    "@e" ∉ ((consolidateSessions true (fun _ => true) false
        [("@e", some ⟨"@e", none, some "expired", none, none, none, none⟩),
         ("@l", some ⟨"@l", some 7, some "live", none, none, none, none⟩)]).sessions.map
          Prod.fst) ∧
    "@e" ∈ (consolidateSessions true (fun _ => true) false
        [("@e", some ⟨"@e", none, some "expired", none, none, none, none⟩),
         ("@l", some ⟨"@l", some 7, some "live", none, none, none, none⟩)]).removedHeaderEntries ∧
    "@e" ∈ (consolidateSessions true (fun _ => true) false
        [("@e", some ⟨"@e", none, some "expired", none, none, none, none⟩),
         ("@l", some ⟨"@l", some 7, some "live", none, none, none, none⟩)]).removedBearerEntries ∧
    (false = false → "@e" ∈ (consolidateSessions true (fun _ => true) false
        [("@e", some ⟨"@e", none, some "expired", none, none, none, none⟩),
         ("@l", some ⟨"@l", some 7, some "live", none, none, none, none⟩)]).removedSockets) ∧
    (consolidateSessions true (fun _ => true) false
        [("@e", some ⟨"@e", none, some "expired", none, none, none, none⟩),
         ("@l", some ⟨"@l", some 7, some "live", none, none, none, none⟩)]).expiredSessions =
      List.countP (expiredRemoved true)
        [("@e", some ⟨"@e", none, some "expired", none, none, none, none⟩),
         ("@l", some ⟨"@l", some 7, some "live", none, none, none, none⟩)] ∧
    (∃ s' : SessionData,
        ("@e", some s') ∈ (consolidateSessions false (fun _ => true) false
          [("@e", some ⟨"@e", none, some "expired", none, none, none, none⟩),
           ("@l", some ⟨"@l", some 7, some "live", none, none, none, none⟩)]).sessions) :=
  consolidateSessions_cleanExpired_spec (fun _ => true) false
    [("@e", some ⟨"@e", none, some "expired", none, none, none, none⟩),
     ("@l", some ⟨"@l", some 7, some "live", none, none, none, none⟩)]
    (by decide) "@e" ⟨"@e", none, some "expired", none, none, none, none⟩
    (by decide) rfl

/-! ## Registry operations (`src/lib/sessions.ts` lines 99–211)

`getSession`, `saveSession`, `updateSession`, `deleteSession`.  The file
I/O and locking are abstracted into the `Registry` value; `now` is the
`new Date().toISOString()` timestamp.  `updateSession` and
`deleteSession` return the (possibly unchanged) registry and the error
they throw, if any. -/

/-- `getSession(name)`: the stored record, if any. -/
def getSession (reg : Registry) (name : String) : Option SessionData :=
  lookupSession reg name

/-- The CLI error taxonomy (`src/lib/errors.ts` is not under the
provided sources; only the constructor names and messages matter
here). -/
inductive CliError
  | clientError (message : String)
  | authError (message : String)
  | generic (message : String)
deriving Repr, DecidableEq

/-- The message carried by an error. -/
def CliError.message : CliError → String
  | .clientError m => m
  | .authError m => m
  | .generic m => m

/-- The `createdAt` chosen by `saveSession`:
`existingSession?.createdAt || now` (JavaScript `||`, so an absent
record, an absent field and an empty string all fall back to `now`). -/
def createdAtAfterSave (existing : Option SessionData) (now : String) : String :=
  match existing with
  | some e =>
    match e.createdAt with
    | some c => if c = "" then now else c
    | none => now
  | none => now

/-- `saveSession(name, data)`: stores
`{name: sessionName, ...sessionData, createdAt: existing?.createdAt || now}`.
`data.name` is ignored (the parameter type omits `name`). -/
def saveSession (sessionName : String) (d : SessionData) (now : String)
    (reg : Registry) : Registry :=
  setEntry reg sessionName
    (some { d with
      name := sessionName
      createdAt := some (createdAtAfterSave (lookupSession reg sessionName) now) })

/-- JavaScript object-spread field choice `{...existing, ...patch}`:
the patch value when the key is present, otherwise the existing one. -/
def jsOr {α : Type} (patch : Option α) (existing : Option α) : Option α :=
  match patch with
  | some v => some v
  | none => existing

/-- A patch for `updateSession`
(`Partial<Omit<SessionData, 'name' | 'createdAt'>>`). -/
structure NotifKindPatch where
  listChangedAt : Option String
deriving Repr, DecidableEq

/-- Patch for the `notifications` field. -/
structure NotifPatch where
  tools : Option NotifKindPatch
  prompts : Option NotifKindPatch
  resources : Option NotifKindPatch
deriving Repr, DecidableEq

/-- Patch for a session record. -/
structure SessionPatch where
  pid : Option Nat
  status : Option String
  socketPath : Option String
  mcpSessionId : Option String
  notifications : Option NotifPatch
deriving Repr, DecidableEq

/-- Per-kind deep merge
`{...existingSession.notifications?.tools, ...updates.notifications.tools}`. -/
def mergeKind (existing : Option NotifKind) (patch : Option NotifKindPatch) : NotifKind :=
  { listChangedAt :=
      jsOr (patch.bind NotifKindPatch.listChangedAt)
        (existing.bind NotifKind.listChangedAt) }

/-- The merged record built by `updateSession`: shallow merge of all
fields, `name` forced back to `sessionName`, and — when the patch
carries `notifications` — a deep per-kind merge of that field. -/
def applyUpdates (existing : SessionData) (u : SessionPatch)
    (sessionName : String) : SessionData :=
  { name := sessionName
    pid := jsOr u.pid existing.pid
    status := jsOr u.status existing.status
    socketPath := jsOr u.socketPath existing.socketPath
    mcpSessionId := jsOr u.mcpSessionId existing.mcpSessionId
    notifications :=
      match u.notifications with
      | some pn =>
        some { tools := some (mergeKind (existing.notifications.bind Notifications.tools) pn.tools)
               prompts := some (mergeKind (existing.notifications.bind Notifications.prompts) pn.prompts)
               resources := some (mergeKind (existing.notifications.bind Notifications.resources) pn.resources) }
      | none => existing.notifications
    createdAt := existing.createdAt }

/-- `updateSession(name, updates)`: throws `ClientError` when the
session is missing (registry unchanged), otherwise stores the merged
record. -/
def updateSession (sessionName : String) (u : SessionPatch) (reg : Registry) :
    Registry × Option CliError :=
  match lookupSession reg sessionName with
  | none => (reg, some (.clientError ("Session not found: " ++ sessionName)))
  | some existing =>
    (setEntry reg sessionName (some (applyUpdates existing u sessionName)), none)

/-- `deleteSession(name)`: throws `ClientError` when the session is
missing (registry unchanged), otherwise removes the record (the
keychain entries are removed afterwards, errors ignored). -/
def deleteSession (sessionName : String) (reg : Registry) :
    Registry × Option CliError :=
  match lookupSession reg sessionName with
  | none => (reg, some (.clientError ("Session not found: " ++ sessionName)))
  | some _ => (delEntry reg sessionName, none)

lemma regFind_setEntry (reg : Registry) (name : String) (v : Option SessionData) :
    regFind (setEntry reg name v) name = some v := by
  unfold setEntry
  split
  · rename_i h
    induction reg with
    | nil => simp [regFind] at h
    | cons e rest ih =>
      obtain ⟨k, w⟩ := e
      by_cases hk : k = name
      · simp [replaceEntry, regFind, hk]
      · have h' : (regFind rest name).isSome = true := by
          simpa [regFind, hk] using h
        simpa [replaceEntry, regFind, hk] using ih h'
  · rename_i h
    induction reg with
    | nil => simp [regFind]
    | cons e rest ih =>
      obtain ⟨k, w⟩ := e
      by_cases hk : k = name
      · exfalso
        apply h
        simp [regFind, hk]
      · have h' : ¬ (regFind rest name).isSome = true := by
          intro hs
          apply h
          simpa [regFind, hk] using hs
        simpa [regFind, hk] using ih h'

lemma lookupSession_setEntry (reg : Registry) (name : String) (s : SessionData) :
    lookupSession (setEntry reg name (some s)) name = some s := by
  simp [lookupSession, regFind_setEntry]

/-- C8: `saveSession(name, record)` followed by `getSession(name)`
returns the saved record, with `name` set to the given session name and
`createdAt` normalized: the (non-empty) `createdAt` of a pre-existing
record is preserved, otherwise it is set to the save time. -/
theorem saveSession_getSession_roundtrip
    (reg : Registry) (sessionName : String) (d : SessionData) (now : String) :
    getSession (saveSession sessionName d now reg) sessionName =
      some { d with
        name := sessionName
        createdAt := some (createdAtAfterSave (getSession reg sessionName) now) } := by
  simp [getSession, saveSession, lookupSession_setEntry]

/-- C10: on a missing session, `updateSession` and `deleteSession`
throw `ClientError` ("Session not found") and leave the registry
unchanged; on an existing session, `updateSession` stores a shallow
merge whose `name` is unchanged, whose `createdAt` is preserved, and
whose `notifications` field is deep-merged per kind. -/
theorem updateSession_deleteSession_spec
    (reg : Registry) (sessionName : String) (u : SessionPatch) :
    (lookupSession reg sessionName = none →
      updateSession sessionName u reg =
          (reg, some (.clientError ("Session not found: " ++ sessionName))) ∧
        deleteSession sessionName reg =
          (reg, some (.clientError ("Session not found: " ++ sessionName)))) ∧
    (∀ existing : SessionData, lookupSession reg sessionName = some existing →
      (updateSession sessionName u reg).2 = none ∧
      lookupSession (updateSession sessionName u reg).1 sessionName =
        some (applyUpdates existing u sessionName) ∧
      (applyUpdates existing u sessionName).name = sessionName ∧
      (applyUpdates existing u sessionName).createdAt = existing.createdAt ∧
      (applyUpdates existing u sessionName).pid = jsOr u.pid existing.pid ∧
      (applyUpdates existing u sessionName).status = jsOr u.status existing.status ∧
      (applyUpdates existing u sessionName).socketPath =
        jsOr u.socketPath existing.socketPath ∧
      (applyUpdates existing u sessionName).mcpSessionId =
        jsOr u.mcpSessionId existing.mcpSessionId ∧
      (∀ pn, u.notifications = some pn →
        (applyUpdates existing u sessionName).notifications =
          some { tools := some (mergeKind (existing.notifications.bind Notifications.tools) pn.tools)
                 prompts := some (mergeKind (existing.notifications.bind Notifications.prompts) pn.prompts)
                 resources := some (mergeKind (existing.notifications.bind Notifications.resources) pn.resources) }) ∧
      (u.notifications = none →
        (applyUpdates existing u sessionName).notifications = existing.notifications)) := by
  constructor
  · intro hmiss
    constructor
    · simp [updateSession, hmiss]
    · simp [deleteSession, hmiss]
  · intro existing hex
    refine ⟨by simp [updateSession, hex], ?_, rfl, rfl, rfl, rfl, rfl, rfl, ?_, ?_⟩
    · simp [updateSession, hex, lookupSession_setEntry]
    · intro pn hpn
      simp [applyUpdates, hpn]
    · intro hpn
      simp [applyUpdates, hpn]

/-- C10 witness: a missing name and an existing record patched with a
new status and a tools notification timestamp. -/
theorem updateSession_deleteSession_spec_witness :
    (lookupSession [("@x", some ⟨"@x", none, some "live", none, none,
        some ⟨some ⟨some "t1"⟩, none, none⟩, some "c1"⟩)] "@y" = none →
      updateSession "@y" ⟨none, some "crashed", none, none, none⟩
          [("@x", some ⟨"@x", none, some "live", none, none,
            some ⟨some ⟨some "t1"⟩, none, none⟩, some "c1"⟩)] =
          ([("@x", some ⟨"@x", none, some "live", none, none,
            some ⟨some ⟨some "t1"⟩, none, none⟩, some "c1"⟩)],
            some (.clientError ("Session not found: " ++ "@y"))) ∧
        deleteSession "@y"
          [("@x", some ⟨"@x", none, some "live", none, none,
            some ⟨some ⟨some "t1"⟩, none, none⟩, some "c1"⟩)] =
          ([("@x", some ⟨"@x", none, some "live", none, none,
            some ⟨some ⟨some "t1"⟩, none, none⟩, some "c1"⟩)],
            some (.clientError ("Session not found: " ++ "@y")))) ∧
    (∀ existing : SessionData,
      lookupSession [("@x", some ⟨"@x", none, some "live", none, none,
          some ⟨some ⟨some "t1"⟩, none, none⟩, some "c1"⟩)] "@y" = some existing →
      (updateSession "@y" ⟨none, some "crashed", none, none, none⟩
          [("@x", some ⟨"@x", none, some "live", none, none,
            some ⟨some ⟨some "t1"⟩, none, none⟩, some "c1"⟩)]).2 = none ∧
      lookupSession (updateSession "@y" ⟨none, some "crashed", none, none, none⟩
          [("@x", some ⟨"@x", none, some "live", none, none,
            some ⟨some ⟨some "t1"⟩, none, none⟩, some "c1"⟩)]).1 "@y" =
        some (applyUpdates existing ⟨none, some "crashed", none, none, none⟩ "@y") ∧
      (applyUpdates existing ⟨none, some "crashed", none, none, none⟩ "@y").name = "@y" ∧
      (applyUpdates existing ⟨none, some "crashed", none, none, none⟩ "@y").createdAt =
        existing.createdAt ∧
      (applyUpdates existing ⟨none, some "crashed", none, none, none⟩ "@y").pid =
        jsOr none existing.pid ∧
      (applyUpdates existing ⟨none, some "crashed", none, none, none⟩ "@y").status =
        jsOr (some "crashed") existing.status ∧
      (applyUpdates existing ⟨none, some "crashed", none, none, none⟩ "@y").socketPath =
        jsOr none existing.socketPath ∧
      (applyUpdates existing ⟨none, some "crashed", none, none, none⟩ "@y").mcpSessionId =
        jsOr none existing.mcpSessionId ∧
      (∀ pn, (⟨none, some "crashed", none, none, none⟩ : SessionPatch).notifications = some pn →
        (applyUpdates existing ⟨none, some "crashed", none, none, none⟩ "@y").notifications =
          some { tools := some (mergeKind (existing.notifications.bind Notifications.tools) pn.tools)
                 prompts := some (mergeKind (existing.notifications.bind Notifications.prompts) pn.prompts)
                 resources := some (mergeKind (existing.notifications.bind Notifications.resources) pn.resources) }) ∧
      ((⟨none, some "crashed", none, none, none⟩ : SessionPatch).notifications = none →
        (applyUpdates existing ⟨none, some "crashed", none, none, none⟩ "@y").notifications =
          existing.notifications)) :=
  updateSession_deleteSession_spec
    [("@x", some ⟨"@x", none, some "live", none, none,
      some ⟨some ⟨some "t1"⟩, none, none⟩, some "c1"⟩)] "@y"
    ⟨none, some "crashed", none, none, none⟩

/-! ## Loading the registry (`loadSessionsInternal`, lines 30–52) and
the file lock (`withFileLock`, `src/lib/file-lock.ts`)

The file read and `JSON.parse` are environment inputs:
`none` models a missing file, `.error` a read/parse exception (or the
`TypeError` of accessing `.sessions` on `null` — also caught by the
same `try`).  The parsed value is a small JSON model. -/

/-- A JSON value. -/
inductive Json
  | null
  | bool (b : Bool)
  | num (n : Int)
  | str (s : String)
  | arr (xs : List Json)
  | obj (fields : List (String × Json))
deriving Repr

/-- JavaScript truthiness of a JSON value (`!storage.sessions`). -/
def jsTruthy : Json → Bool
  | .null => false
  | .bool b => b
  | .num n => n != 0
  | .str s => s != ""
  | .arr _ => true
  | .obj _ => true

/-- `typeof v === 'object'` for a JSON value. -/
def jsTypeofObject : Json → Bool
  | .null => true
  | .arr _ => true
  | .obj _ => true
  | _ => false

/-- Key lookup in a JSON object's field list. -/
def lookupField : List (String × Json) → String → Option Json
  | [], _ => none
  | (k, w) :: rest, key => if k = key then some w else lookupField rest key

/-- Property access `storage.sessions` (`none` when `storage` is not an
object or lacks the key; the runtime `TypeError` on `null` is modelled
by the caller's `.error` input). -/
def jsonField (v : Json) (key : String) : Option Json :=
  match v with
  | .obj fields => lookupField fields key
  | _ => none

/-- The empty structure `{sessions: {}}`. -/
def emptySessions : Json :=
  .obj [("sessions", .obj [])]

/-- `loadSessionsInternal`: returns `{sessions: {}}` when the file is
missing, when reading/parsing throws, or when the parsed value has no
truthy object under `sessions`; otherwise returns the parsed storage. -/
def loadSessionsInternal (file : Option (Except String Json)) : Json :=
  match file with
  | none => emptySessions
  | some (.error _) => emptySessions
  | some (.ok storage) =>
    match jsonField storage "sessions" with
    | some v => if jsTruthy v && jsTypeofObject v then storage else emptySessions
    | none => emptySessions

/-- The `catch` clause of `withFileLock`: a raised error whose message
contains `ELOCKED` (the lock-acquisition timeout of `proper-lockfile`)
is turned into a `ClientError` with a retry hint; anything else is
rethrown. -/
def withFileLockError (filePath raised : String) : CliError :=
  if strContains raised "ELOCKED" then
    .clientError ("File is locked by another process: " ++ filePath ++ ". Please try again.")
  else .generic raised

lemma containsSub_append_right (l₁ l₂ pat : List Char)
    (h : containsSub l₂ pat = true) : containsSub (l₁ ++ l₂) pat = true := by
  induction l₁ with
  | nil => simpa using h
  | cons c t ih => simp [containsSub, ih]

lemma strContains_append_right (a b pat : String) (h : strContains b pat = true) :
    strContains (a ++ b) pat = true := by
  unfold strContains at *
  have hl : (a ++ b).toList = a.toList ++ b.toList := by
    simp [String.toList, String.data_append]
  rw [hl]
  exact containsSub_append_right a.toList b.toList pat.toList h

/-- C9: loading the sessions registry never throws — a missing file, a
read/parse error, and a parsed value without a `sessions` object all
yield `{sessions: {}}` — and a lock-acquisition timeout (`ELOCKED`)
becomes a `ClientError` whose message carries a retry hint. -/
theorem loadSessions_total_spec :
    loadSessionsInternal none = emptySessions ∧
    (∀ e : String, loadSessionsInternal (some (.error e)) = emptySessions) ∧
    (∀ storage : Json, jsonField storage "sessions" = none →
      loadSessionsInternal (some (.ok storage)) = emptySessions) ∧
    (∀ storage v : Json, jsonField storage "sessions" = some v →
      (jsTruthy v && jsTypeofObject v) = false →
      loadSessionsInternal (some (.ok storage)) = emptySessions) ∧
    (∀ storage v : Json, jsonField storage "sessions" = some v →
      (jsTruthy v && jsTypeofObject v) = true →
      loadSessionsInternal (some (.ok storage)) = storage) ∧
    (∀ filePath raised : String, strContains raised "ELOCKED" = true →
      withFileLockError filePath raised =
          .clientError ("File is locked by another process: " ++ filePath ++
            ". Please try again.") ∧
        strContains (withFileLockError filePath raised).message "try again" = true) := by
  refine ⟨rfl, fun e => rfl, ?_, ?_, ?_, ?_⟩
  · intro storage h
    simp [loadSessionsInternal, h]
  · intro storage v h hb
    simp [loadSessionsInternal, h, hb]
  · intro storage v h hb
    simp [loadSessionsInternal, h, hb]
  · intro filePath raised h
    have he : withFileLockError filePath raised =
        .clientError ("File is locked by another process: " ++ filePath ++
          ". Please try again.") := by
      simp [withFileLockError, h]
    refine ⟨he, ?_⟩
    rw [he]
    exact strContains_append_right
      ("File is locked by another process: " ++ filePath) ". Please try again."
      "try again" (by decide)

/-- C9 witness: the four failure shapes at concrete inputs and a
concrete `ELOCKED` message. -/
theorem loadSessions_total_spec_witness :
    loadSessionsInternal (some (.ok (.obj [("sessions", .num 3)]))) = emptySessions ∧
    loadSessionsInternal (some (.ok (.obj [("other", .obj [])]))) = emptySessions ∧
    loadSessionsInternal
        (some (.ok (.obj [("sessions", .obj [("@a", .null)])]))) =
      .obj [("sessions", .obj [("@a", .null)])] ∧
    withFileLockError "/home/u/.mcpc/sessions.json"
        "Lock failed: ELOCKED: file already locked" =
      .clientError ("File is locked by another process: " ++
        "/home/u/.mcpc/sessions.json" ++ ". Please try again.") ∧
    strContains (withFileLockError "/home/u/.mcpc/sessions.json"
        "Lock failed: ELOCKED: file already locked").message "try again" = true := by
  refine ⟨?_, ?_, ?_, ?_, ?_⟩
  · exact loadSessions_total_spec.2.2.2.1 (.obj [("sessions", .num 3)]) (.num 3)
      rfl (by decide)
  · exact loadSessions_total_spec.2.2.1 (.obj [("other", .obj [])]) rfl
  · exact loadSessions_total_spec.2.2.2.2.1 (.obj [("sessions", .obj [("@a", .null)])])
      (.obj [("@a", .null)]) rfl (by decide)
  · exact (loadSessions_total_spec.2.2.2.2.2 "/home/u/.mcpc/sessions.json"
      "Lock failed: ELOCKED: file already locked" (by decide)).1
  · exact (loadSessions_total_spec.2.2.2.2.2 "/home/u/.mcpc/sessions.json"
      "Lock failed: ELOCKED: file already locked" (by decide)).2

/-! ## Proxy server request handling
(`ProxyServer.handleRequest`, `src/bridge/cache.ts` lines 229–298)

The handler is modelled as a pure decision: which response it writes,
or whether it forwards the request to the MCP transport. -/

/-- The outcome of `handleRequest` for one HTTP request. -/
inductive ProxyAction
  | health
  | unauthorized
  | forbidden
  | forwardPost
  | forwardGet
  | sessionTerminated
  | methodNotAllowed
deriving Repr, DecidableEq

/-- The HTTP status written by each direct response (`none` for
requests handed to the MCP transport). -/
def ProxyAction.status : ProxyAction → Option Nat
  | .health => some 200
  | .unauthorized => some 401
  | .forbidden => some 403
  | .forwardPost => none
  | .forwardGet => none
  | .sessionTerminated => some 200
  | .methodNotAllowed => some 405

/-- Whether the request is forwarded to the upstream MCP server. -/
def ProxyAction.forwarded : ProxyAction → Bool
  | .forwardPost => true
  | .forwardGet => true
  | _ => false

/-- `ProxyServer.handleRequest`: health check first (no auth), then
bearer-token validation when a token is configured, then method
routing. -/
def handleRequest (method url : String) (authorization : Option String)
    (bearerToken : Option String) : ProxyAction :=
  if url = "/health" ∧ method = "GET" then .health
  else
    let routed : ProxyAction :=
      if method = "POST" then .forwardPost
      else if method = "GET" then .forwardGet
      else if method = "DELETE" then .sessionTerminated
      else .methodNotAllowed
    match bearerToken with
    | none => routed
    | some token =>
      match authorization with
      | none => .unauthorized
      | some h =>
        if ¬ h.startsWith "Bearer " then .unauthorized
        else if h.drop 7 ≠ token then .forbidden
        else routed

/-- C4: with a configured bearer token, `GET /health` is answered 200
with no authentication check; any other request without a well-formed
`Authorization: Bearer …` header is answered 401 and not forwarded; any
other request whose provided token differs from the configured one is
answered 403 and not forwarded. -/
theorem proxy_auth_spec (token method url : String) (auth : Option String) :
    (handleRequest "GET" "/health" auth (some token) = .health ∧
      ProxyAction.status (handleRequest "GET" "/health" auth (some token)) = some 200) ∧
    (¬ (url = "/health" ∧ method = "GET") →
      (auth = none ∨ ∃ h, auth = some h ∧ h.startsWith "Bearer " = false) →
      handleRequest method url auth (some token) = .unauthorized ∧
        ProxyAction.status (handleRequest method url auth (some token)) = some 401 ∧
        ProxyAction.forwarded (handleRequest method url auth (some token)) = false) ∧
    (∀ h : String, ¬ (url = "/health" ∧ method = "GET") → auth = some h →
      h.startsWith "Bearer " = true → h.drop 7 ≠ token →
      handleRequest method url auth (some token) = .forbidden ∧
        ProxyAction.status (handleRequest method url auth (some token)) = some 403 ∧
        ProxyAction.forwarded (handleRequest method url auth (some token)) = false) := by
  refine ⟨?_, ?_, ?_⟩
  · constructor <;> simp [handleRequest, ProxyAction.status]
  · intro hnh hbad
    have hr : handleRequest method url auth (some token) = .unauthorized := by
      rcases hbad with hnone | ⟨h, hsome, hpre⟩
      · simp [handleRequest, hnh, hnone]
      · simp [handleRequest, hnh, hsome, hpre]
    exact ⟨hr, by rw [hr]; rfl, by rw [hr]; rfl⟩
  · intro h hnh hsome hpre hne
    have hr : handleRequest method url auth (some token) = .forbidden := by
      simp [handleRequest, hnh, hsome, hpre, hne]
    exact ⟨hr, by rw [hr]; rfl, by rw [hr]; rfl⟩

/-- C4 witness: a `POST /` with no header, and one with a wrong
token. -/
theorem proxy_auth_spec_witness :
    ((handleRequest "GET" "/health" none (some "T") = .health ∧
      ProxyAction.status (handleRequest "GET" "/health" none (some "T")) = some 200) ∧
    (¬ ("/" = "/health" ∧ "POST" = "GET") →
      ((none : Option String) = none ∨
        ∃ h, (none : Option String) = some h ∧ h.startsWith "Bearer " = false) →
      handleRequest "POST" "/" none (some "T") = .unauthorized ∧
        ProxyAction.status (handleRequest "POST" "/" none (some "T")) = some 401 ∧
        ProxyAction.forwarded (handleRequest "POST" "/" none (some "T")) = false) ∧
    (∀ h : String, ¬ ("/" = "/health" ∧ "POST" = "GET") →
      (none : Option String) = some h → h.startsWith "Bearer " = true →
      h.drop 7 ≠ "T" →
      handleRequest "POST" "/" none (some "T") = .forbidden ∧
        ProxyAction.status (handleRequest "POST" "/" none (some "T")) = some 403 ∧
        ProxyAction.forwarded (handleRequest "POST" "/" none (some "T")) = false)) ∧
    ((handleRequest "GET" "/health" (some "Bearer wrong") (some "T") = .health ∧
      ProxyAction.status (handleRequest "GET" "/health" (some "Bearer wrong") (some "T")) =
        some 200) ∧
    (¬ ("/" = "/health" ∧ "POST" = "GET") →
      ((some "Bearer wrong" : Option String) = none ∨
        ∃ h, (some "Bearer wrong" : Option String) = some h ∧
          h.startsWith "Bearer " = false) →
      handleRequest "POST" "/" (some "Bearer wrong") (some "T") = .unauthorized ∧
        ProxyAction.status (handleRequest "POST" "/" (some "Bearer wrong") (some "T")) =
          some 401 ∧
        ProxyAction.forwarded (handleRequest "POST" "/" (some "Bearer wrong") (some "T")) =
          false) ∧
    (∀ h : String, ¬ ("/" = "/health" ∧ "POST" = "GET") →
      (some "Bearer wrong" : Option String) = some h →
      h.startsWith "Bearer " = true → h.drop 7 ≠ "T" →
      handleRequest "POST" "/" (some "Bearer wrong") (some "T") = .forbidden ∧
        ProxyAction.status (handleRequest "POST" "/" (some "Bearer wrong") (some "T")) =
          some 403 ∧
        ProxyAction.forwarded (handleRequest "POST" "/" (some "Bearer wrong") (some "T")) =
          false)) :=
  ⟨proxy_auth_spec "T" "POST" "/" none,
    proxy_auth_spec "T" "POST" "/" (some "Bearer wrong")⟩

/-! ## List cache (`CacheManager`, `src/bridge/cache.ts` lines 37–120)

`now` stands for `Date.now()`.  The `Map` becomes an association list
with unique keys. -/

/-- Cache kinds invalidated by server notifications. -/
inductive CacheType
  | tools
  | resources
  | prompts
  | resourceTemplates
deriving Repr, DecidableEq

/-- A cached item with its insertion timestamp. -/
structure CacheEntry (α : Type) where
  data : α
  timestamp : Int
deriving Repr, DecidableEq

/-- Cache configuration. -/
structure CacheConfig where
  ttl : Int
deriving Repr, DecidableEq

/-- The cache manager state. -/
structure CacheManager (α : Type) where
  cache : List (CacheType × CacheEntry α)
  config : CacheConfig
deriving Repr, DecidableEq

/-- `Map.prototype.get`. -/
def cacheFind {α : Type} : List (CacheType × CacheEntry α) → CacheType → Option (CacheEntry α)
  | [], _ => none
  | (k, e) :: rest, t => if k = t then some e else cacheFind rest t

/-- `Map.prototype.delete`. -/
def cacheErase {α : Type} : List (CacheType × CacheEntry α) → CacheType → List (CacheType × CacheEntry α)
  | [], _ => []
  | (k, e) :: rest, t => if k = t then cacheErase rest t else (k, e) :: cacheErase rest t

/-- `Map.prototype.set`: replace in place, else append. -/
def cacheStore {α : Type} : List (CacheType × CacheEntry α) → CacheType → CacheEntry α →
    List (CacheType × CacheEntry α)
  | [], t, e => [(t, e)]
  | (k, w) :: rest, t, e =>
    if k = t then (t, e) :: rest else (k, w) :: cacheStore rest t e

/-- The `CacheManager` constructor: `ttl: config.ttl ?? 5 * 60 * 1000`. -/
def CacheManager.init (α : Type) (ttl : Option Int) : CacheManager α :=
  { cache := [], config := { ttl := ttl.getD (5 * 60 * 1000) } }

/-- `CacheManager.get`: miss on absent entry; when the entry's age
exceeds the TTL, delete it and miss; otherwise hit. -/
def CacheManager.get {α : Type} (m : CacheManager α) (t : CacheType) (now : Int) :
    Option α × CacheManager α :=
  match cacheFind m.cache t with
  | none => (none, m)
  | some e =>
    if now - e.timestamp > m.config.ttl then
      (none, { m with cache := cacheErase m.cache t })
    else (some e.data, m)

/-- `CacheManager.set`: store with the current timestamp. -/
def CacheManager.store {α : Type} (m : CacheManager α) (t : CacheType) (d : α)
    (now : Int) : CacheManager α :=
  { m with cache := cacheStore m.cache t ⟨d, now⟩ }

lemma cacheFind_erase_self {α : Type} (c : List (CacheType × CacheEntry α)) (t : CacheType) :
    cacheFind (cacheErase c t) t = none := by
  induction c with
  | nil => rfl
  | cons e rest ih =>
    obtain ⟨k, w⟩ := e
    by_cases hk : k = t
    · simpa [cacheErase, hk] using ih
    · simpa [cacheErase, cacheFind, hk] using ih

lemma cacheFind_erase_other {α : Type} (c : List (CacheType × CacheEntry α))
    (t u : CacheType) (h : u ≠ t) : cacheFind (cacheErase c t) u = cacheFind c u := by
  induction c with
  | nil => rfl
  | cons e rest ih =>
    obtain ⟨k, w⟩ := e
    by_cases hk : k = t
    · subst hk
      simpa [cacheErase, cacheFind, Ne.symm h] using ih
    · by_cases hku : k = u
      · simp [cacheErase, cacheFind, hk, hku, h]
      · simpa [cacheErase, cacheFind, hk, hku] using ih

lemma cacheFind_store_other {α : Type} (c : List (CacheType × CacheEntry α))
    (t u : CacheType) (e : CacheEntry α) (h : u ≠ t) :
    cacheFind (cacheStore c t e) u = cacheFind c u := by
  induction c with
  | nil => simp [cacheStore, cacheFind, Ne.symm h]
  | cons kv rest ih =>
    obtain ⟨k, w⟩ := kv
    by_cases hk : k = t
    · subst hk
      simp [cacheStore, cacheFind, Ne.symm h]
    · by_cases hku : k = u
      · simp [cacheStore, cacheFind, hk, hku, h]
      · simpa [cacheStore, cacheFind, hk, hku] using ih

/-- C7: `CacheManager.get` misses on an absent entry; when the entry's
age (now − insertion time) exceeds the TTL it deletes that entry — and
only that entry — and misses; otherwise it returns the stored payload
and leaves the cache unchanged.  The default TTL is 300000 ms, and
`set` never evicts other entries (expiry is only enforced on access). -/
theorem cacheManager_get_spec (α : Type) (m : CacheManager α) (t : CacheType) (now : Int) :
    (cacheFind m.cache t = none → m.get t now = (none, m)) ∧
    (∀ e : CacheEntry α, cacheFind m.cache t = some e →
      (now - e.timestamp > m.config.ttl →
        (m.get t now).1 = none ∧
        cacheFind (m.get t now).2.cache t = none ∧
        (∀ u : CacheType, u ≠ t →
          cacheFind (m.get t now).2.cache u = cacheFind m.cache u) ∧
        (m.get t now).2.config = m.config) ∧
      (¬ now - e.timestamp > m.config.ttl → m.get t now = (some e.data, m))) ∧
    (CacheManager.init α none).config.ttl = 300000 ∧
    (∀ (d : α) (u : CacheType), u ≠ t →
      cacheFind ((m.store t d now).cache) u = cacheFind m.cache u) := by
  refine ⟨?_, ?_, rfl, ?_⟩
  · intro h
    simp [CacheManager.get, h]
  · intro e he
    constructor
    · intro hexp
      refine ⟨?_, ?_, ?_, ?_⟩
      · simp [CacheManager.get, he, hexp]
      · simp [CacheManager.get, he, hexp, cacheFind_erase_self]
      · intro u hu
        simp [CacheManager.get, he, hexp, cacheFind_erase_other _ _ _ hu]
      · simp [CacheManager.get, he, hexp]
    · intro hexp
      simp [CacheManager.get, he, hexp]
  · intro d u hu
    simp [CacheManager.store, cacheFind_store_other _ _ _ _ hu]

/-- C7 witness: one fresh and one stale access against a singleton
cache holding the tools list. -/
theorem cacheManager_get_spec_witness :
    ((cacheFind (CacheManager.mk [(CacheType.tools, ⟨["echo"], 1000⟩)]
        ⟨300000⟩ : CacheManager (List String)).cache CacheType.tools = none →
      (CacheManager.mk [(CacheType.tools, ⟨["echo"], 1000⟩)]
        ⟨300000⟩ : CacheManager (List String)).get CacheType.tools 302000 =
        (none, CacheManager.mk [(CacheType.tools, ⟨["echo"], 1000⟩)] ⟨300000⟩)) ∧
    (∀ e : CacheEntry (List String),
      cacheFind (CacheManager.mk [(CacheType.tools, ⟨["echo"], 1000⟩)]
        ⟨300000⟩ : CacheManager (List String)).cache CacheType.tools = some e →
      ((302000 : Int) - e.timestamp >
          (CacheManager.mk [(CacheType.tools, ⟨["echo"], 1000⟩)]
            ⟨300000⟩ : CacheManager (List String)).config.ttl →
        ((CacheManager.mk [(CacheType.tools, ⟨["echo"], 1000⟩)]
          ⟨300000⟩ : CacheManager (List String)).get CacheType.tools 302000).1 = none ∧
        cacheFind ((CacheManager.mk [(CacheType.tools, ⟨["echo"], 1000⟩)]
          ⟨300000⟩ : CacheManager (List String)).get CacheType.tools 302000).2.cache
            CacheType.tools = none ∧
        (∀ u : CacheType, u ≠ CacheType.tools →
          cacheFind ((CacheManager.mk [(CacheType.tools, ⟨["echo"], 1000⟩)]
            ⟨300000⟩ : CacheManager (List String)).get CacheType.tools 302000).2.cache u =
            cacheFind (CacheManager.mk [(CacheType.tools, ⟨["echo"], 1000⟩)]
              ⟨300000⟩ : CacheManager (List String)).cache u) ∧
        ((CacheManager.mk [(CacheType.tools, ⟨["echo"], 1000⟩)]
          ⟨300000⟩ : CacheManager (List String)).get CacheType.tools 302000).2.config =
            (CacheManager.mk [(CacheType.tools, ⟨["echo"], 1000⟩)]
              ⟨300000⟩ : CacheManager (List String)).config) ∧
      (¬ (302000 : Int) - e.timestamp >
          (CacheManager.mk [(CacheType.tools, ⟨["echo"], 1000⟩)]
            ⟨300000⟩ : CacheManager (List String)).config.ttl →
        (CacheManager.mk [(CacheType.tools, ⟨["echo"], 1000⟩)]
          ⟨300000⟩ : CacheManager (List String)).get CacheType.tools 302000 =
          (some e.data, CacheManager.mk [(CacheType.tools, ⟨["echo"], 1000⟩)] ⟨300000⟩))) ∧
    (CacheManager.init (List String) none).config.ttl = 300000 ∧
    (∀ (d : List String) (u : CacheType), u ≠ CacheType.tools →
      cacheFind (((CacheManager.mk [(CacheType.tools, ⟨["echo"], 1000⟩)]
        ⟨300000⟩ : CacheManager (List String)).store CacheType.tools d 302000).cache) u =
        cacheFind (CacheManager.mk [(CacheType.tools, ⟨["echo"], 1000⟩)]
          ⟨300000⟩ : CacheManager (List String)).cache u)) :=
  cacheManager_get_spec (List String)
    (CacheManager.mk [(CacheType.tools, ⟨["echo"], 1000⟩)] ⟨300000⟩)
    CacheType.tools 302000


/-! ## OAuth token lifecycle

`isTokenExpired` (`src/lib/auth/token-refresh.ts` lines 211–222,
identical in both source revisions) and the valid-token retrieval of
the OAuth token manager.  ISO timestamps are modelled as epoch
milliseconds; keychain `expiresAt` is unix seconds, as in the source. -/

/-- An auth profile's metadata (tokens live in the Secret Store). -/
structure AuthProfile where
  name : String
  serverUrl : String
  expiresAt : Option Int
  scopes : Option (List String)
  authenticatedAt : Option Int
  updatedAt : Option Int
deriving Repr, DecidableEq

/-- `isTokenExpired(profile, bufferSeconds)`: no `expiresAt` means not
expired; otherwise expired iff `expiresAt − buffer` lies in the past. -/
def isTokenExpired (profile : AuthProfile) (now : Int) (bufferSeconds : Int) : Bool :=
  match profile.expiresAt with
  | none => false
  | some t => decide (t - bufferSeconds * 1000 < now)

/-- OAuth token endpoint response (snake_case per OAuth 2.0). -/
structure OAuthTokenResponse where
  access_token : String
  token_type : String
  expires_in : Option Int
  refresh_token : Option String
  scope : Option String
deriving Repr, DecidableEq

/-- Tokens as persisted to the keychain (camelCase). -/
structure KeychainOAuthTokens where
  accessToken : String
  tokenType : String
  expiresIn : Option Int
  expiresAt : Option Int
  refreshToken : Option String
  scope : Option String
deriving Repr, DecidableEq

/-- The keychain half of `createPersistenceCallback`
(`src/unnamed/part_002` lines 144–165): convert the refresh response to
camelCase, computing `expiresAt = now + expires_in` (unix seconds). -/
def persistedKeychainTokens (nowSec : Int) (newTokens : OAuthTokenResponse) :
    KeychainOAuthTokens :=
  { accessToken := newTokens.access_token
    tokenType := newTokens.token_type
    expiresIn := newTokens.expires_in
    expiresAt := newTokens.expires_in.map (fun e => nowSec + e)
    refreshToken := newTokens.refresh_token
    scope := newTokens.scope }

/-- The profile half of `createPersistenceCallback`
(`src/unnamed/part_002` lines 167–180): refresh the timestamps, update
`expiresAt` when the keychain tokens carry one (JavaScript truthiness:
an `expiresAt` of 0 is skipped), and update `scopes` when a non-empty
scope string was returned. -/
def persistedProfile (profile : AuthProfile) (nowSec : Int)
    (kc : KeychainOAuthTokens) (newScope : Option String) : AuthProfile :=
  let base := { profile with
    authenticatedAt := some (nowSec * 1000)
    updatedAt := some (nowSec * 1000) }
  let withExp :=
    match kc.expiresAt with
    | some t => if t = 0 then base else { base with expiresAt := some (t * 1000) }
    | none => base
  match newScope with
  | some sc => if sc = "" then withExp else { withExp with scopes := some (sc.splitOn " ") }
  | none => withExp

/-- The token manager's in-memory state
(`getValidAccessTokenFromKeychain` constructs it from the keychain,
`src/unnamed/part_002` lines 226–233). -/
structure TokenManagerState where
  accessToken : Option String
  accessTokenExpiresAt : Option Int
  refreshToken : String
deriving Repr, DecidableEq

/-- Modelled from the spec: the token-validity test of
`OAuthTokenManager` (the class file is not among the provided sources).
Spec §4.4: the access token is usable when present and not within 60
seconds of `expiresAt`; the keychain path of the present caller
(`src/unnamed/part_002` line 213) uses the same
`now > expiresAt − 60` comparison in unix seconds. -/
def tokenUsable (st : TokenManagerState) (nowSec : Int) : Bool :=
  st.accessToken.isSome &&
    (match st.accessTokenExpiresAt with
     | none => true
     | some t => decide (nowSec ≤ t - 60))

/-- Modelled from the spec: `OAuthTokenManager.getValidAccessToken`
(the class file is not among the provided sources).  Spec §4.4: if the
access token is usable, return it; otherwise refresh, persist the new
tokens via the Secret Store in camelCase and update the profile
metadata through the persistence callback (that callback is source:
`createPersistenceCallback`), then return the new token.
`refreshResponse` is the environment's answer to the refresh request;
the second component records what was persisted (`none` = no refresh
performed). -/
def getValidAccessToken (profile : AuthProfile) (st : TokenManagerState)
    (nowSec : Int) (refreshResponse : OAuthTokenResponse) :
    String × Option (KeychainOAuthTokens × AuthProfile) :=
  if tokenUsable st nowSec then (st.accessToken.getD "", none)
  else
    let kc := persistedKeychainTokens nowSec refreshResponse
    (refreshResponse.access_token,
      some (kc, persistedProfile profile nowSec kc refreshResponse.scope))

/-- C5: the stored access token is treated as usable exactly when it is
not within 60 seconds of `expiresAt` (no `expiresAt` — never expired);
when it is not usable, a refresh is performed, the new tokens are
persisted in camelCase form, and the profile metadata (`expiresAt`,
`scopes`, timestamps) is updated before the new token is returned. -/
theorem tokenRefresh_validToken_spec
    (profile : AuthProfile) (st : TokenManagerState) (nowMs nowSec : Int)
    (resp : OAuthTokenResponse) :
    (profile.expiresAt = none → isTokenExpired profile nowMs 60 = false) ∧
    (∀ t : Int, profile.expiresAt = some t →
      isTokenExpired profile nowMs 60 = decide (t - 60 * 1000 < nowMs)) ∧
    (tokenUsable st nowSec = true →
      getValidAccessToken profile st nowSec resp = (st.accessToken.getD "", none)) ∧
    (tokenUsable st nowSec = false →
      getValidAccessToken profile st nowSec resp =
        (resp.access_token,
          some (persistedKeychainTokens nowSec resp,
            persistedProfile profile nowSec (persistedKeychainTokens nowSec resp)
              resp.scope)) ∧
      (persistedKeychainTokens nowSec resp).accessToken = resp.access_token ∧
      (persistedKeychainTokens nowSec resp).tokenType = resp.token_type ∧
      (persistedKeychainTokens nowSec resp).refreshToken = resp.refresh_token ∧
      (persistedKeychainTokens nowSec resp).scope = resp.scope ∧
      (persistedKeychainTokens nowSec resp).expiresAt =
        resp.expires_in.map (fun e => nowSec + e) ∧
      (persistedProfile profile nowSec (persistedKeychainTokens nowSec resp)
          resp.scope).authenticatedAt = some (nowSec * 1000) ∧
      (persistedProfile profile nowSec (persistedKeychainTokens nowSec resp)
          resp.scope).updatedAt = some (nowSec * 1000) ∧
      (∀ e : Int, resp.expires_in = some e → nowSec + e ≠ 0 →
        (persistedProfile profile nowSec (persistedKeychainTokens nowSec resp)
            resp.scope).expiresAt = some ((nowSec + e) * 1000)) ∧
      (∀ sc : String, resp.scope = some sc → sc ≠ "" →
        (persistedProfile profile nowSec (persistedKeychainTokens nowSec resp)
            resp.scope).scopes = some (sc.splitOn " "))) := by
  refine ⟨?_, ?_, ?_, ?_⟩
  · intro h
    simp [isTokenExpired, h]
  · intro t h
    simp [isTokenExpired, h]
  · intro h
    simp [getValidAccessToken, h]
  · intro h
    refine ⟨by simp [getValidAccessToken, h], rfl, rfl, rfl, rfl, rfl, ?_, ?_, ?_, ?_⟩
    · unfold persistedProfile
      cases hkc : (persistedKeychainTokens nowSec resp).expiresAt <;>
        cases hsc : resp.scope <;> simp [hkc, hsc] <;> split_ifs <;> rfl
    · unfold persistedProfile
      cases hkc : (persistedKeychainTokens nowSec resp).expiresAt <;>
        cases hsc : resp.scope <;> simp [hkc, hsc] <;> split_ifs <;> rfl
    · intro e he hne
      have hkc : (persistedKeychainTokens nowSec resp).expiresAt = some (nowSec + e) := by
        simp [persistedKeychainTokens, he]
      unfold persistedProfile
      rw [hkc]
      cases hsc : resp.scope with
      | none => simp [hne]
      | some sc =>
        by_cases hsce : sc = "" <;> simp [hne, hsce]
    · intro sc hsc hne
      unfold persistedProfile
      rw [hsc]
      cases hkc : (persistedKeychainTokens nowSec resp).expiresAt with
      | none => simp [hne]
      | some t =>
        by_cases ht : t = 0 <;> simp [hne, ht]

/-- C5 witness: a usable token (61 s before expiry), and an expired one
triggering a persisted refresh. -/
theorem tokenRefresh_validToken_spec_witness :
    (((⟨"default", "https://s", none, none, none, none⟩ : AuthProfile).expiresAt = none →
      isTokenExpired ⟨"default", "https://s", none, none, none, none⟩ 500000 60 = false) ∧
    (∀ t : Int, (⟨"default", "https://s", none, none, none, none⟩ : AuthProfile).expiresAt =
        some t →
      isTokenExpired ⟨"default", "https://s", none, none, none, none⟩ 500000 60 =
        decide (t - 60 * 1000 < 500000)) ∧
    (tokenUsable ⟨some "tokA", some 1061, "rt"⟩ 1000 = true →
      getValidAccessToken ⟨"default", "https://s", none, none, none, none⟩
          ⟨some "tokA", some 1061, "rt"⟩ 1000
          ⟨"tokB", "Bearer", some 3600, some "rt2", some "read write"⟩ =
        ((Option.some "tokA").getD "", none)) ∧
    (tokenUsable ⟨some "tokA", some 1061, "rt"⟩ 1000 = false →
      getValidAccessToken ⟨"default", "https://s", none, none, none, none⟩
          ⟨some "tokA", some 1061, "rt"⟩ 1000
          ⟨"tokB", "Bearer", some 3600, some "rt2", some "read write"⟩ =
        ("tokB",
          some (persistedKeychainTokens 1000
              ⟨"tokB", "Bearer", some 3600, some "rt2", some "read write"⟩,
            persistedProfile ⟨"default", "https://s", none, none, none, none⟩ 1000
              (persistedKeychainTokens 1000
                ⟨"tokB", "Bearer", some 3600, some "rt2", some "read write"⟩)
              (some "read write"))) ∧
      (persistedKeychainTokens 1000
          ⟨"tokB", "Bearer", some 3600, some "rt2", some "read write"⟩).accessToken =
        "tokB" ∧
      (persistedKeychainTokens 1000
          ⟨"tokB", "Bearer", some 3600, some "rt2", some "read write"⟩).tokenType =
        "Bearer" ∧
      (persistedKeychainTokens 1000
          ⟨"tokB", "Bearer", some 3600, some "rt2", some "read write"⟩).refreshToken =
        some "rt2" ∧
      (persistedKeychainTokens 1000
          ⟨"tokB", "Bearer", some 3600, some "rt2", some "read write"⟩).scope =
        some "read write" ∧
      (persistedKeychainTokens 1000
          ⟨"tokB", "Bearer", some 3600, some "rt2", some "read write"⟩).expiresAt =
        (Option.some 3600).map (fun e => 1000 + e) ∧
      (persistedProfile ⟨"default", "https://s", none, none, none, none⟩ 1000
          (persistedKeychainTokens 1000
            ⟨"tokB", "Bearer", some 3600, some "rt2", some "read write"⟩)
          (some "read write")).authenticatedAt = some (1000 * 1000) ∧
      (persistedProfile ⟨"default", "https://s", none, none, none, none⟩ 1000
          (persistedKeychainTokens 1000
            ⟨"tokB", "Bearer", some 3600, some "rt2", some "read write"⟩)
          (some "read write")).updatedAt = some (1000 * 1000) ∧
      (∀ e : Int,
        (⟨"tokB", "Bearer", some 3600, some "rt2", some "read write"⟩ :
            OAuthTokenResponse).expires_in = some e → (1000 : Int) + e ≠ 0 →
        (persistedProfile ⟨"default", "https://s", none, none, none, none⟩ 1000
            (persistedKeychainTokens 1000
              ⟨"tokB", "Bearer", some 3600, some "rt2", some "read write"⟩)
            (some "read write")).expiresAt = some ((1000 + e) * 1000)) ∧
      (∀ sc : String,
        (⟨"tokB", "Bearer", some 3600, some "rt2", some "read write"⟩ :
            OAuthTokenResponse).scope = some sc → sc ≠ "" →
        (persistedProfile ⟨"default", "https://s", none, none, none, none⟩ 1000
            (persistedKeychainTokens 1000
              ⟨"tokB", "Bearer", some 3600, some "rt2", some "read write"⟩)
            (some "read write")).scopes = some (sc.splitOn " ")))) :=
  tokenRefresh_validToken_spec ⟨"default", "https://s", none, none, none, none⟩
    ⟨some "tokA", some 1061, "rt"⟩ 500000 1000
    ⟨"tokB", "Bearer", some 3600, some "rt2", some "read write"⟩


/-! ## OAuth token refresh requests

Two refresh implementations exist in the sources:
`refreshAccessToken` in the oauth-utils module (`src/unnamed/part_003`
lines 80–117), used by the OAuth token manager, and the legacy
`refreshTokens` in `src/lib/auth/token-refresh.ts` (lines 86–119),
which performs its own fetch.  The HTTP exchange is split into the
request each function constructs and the handling of the response
status. -/

/-- The shape of the refresh POST request. -/
structure HttpRequestModel where
  method : String
  contentType : String
  accept : String
  bodyParams : List (String × String)
deriving Repr, DecidableEq

/-- The request built by `refreshAccessToken` (oauth-utils): exactly
`grant_type`, `refresh_token` and `client_id`. -/
def refreshAccessTokenRequest (refreshToken clientId : String) : HttpRequestModel :=
  { method := "POST"
    contentType := "application/x-www-form-urlencoded"
    accept := "application/json"
    bodyParams := [("grant_type", "refresh_token"), ("refresh_token", refreshToken),
      ("client_id", clientId)] }

/-- Response handling of `refreshAccessToken` (oauth-utils):
`response.ok` passes the body through; 400/401 raise
`AuthError("Refresh token is invalid or expired")`; other statuses
raise a generic failure. -/
def refreshAccessTokenResult (status : Nat) (statusText : String)
    (body : OAuthTokenResponse) : Except CliError OAuthTokenResponse :=
  if 200 ≤ status ∧ status < 300 then .ok body
  else if status = 400 ∨ status = 401 then
    .error (.authError "Refresh token is invalid or expired")
  else
    .error (.authError ("Failed to refresh token: " ++ toString status ++ " " ++ statusText))

/-- The request built by the legacy `refreshTokens`
(`src/lib/auth/token-refresh.ts` lines 87–90): only `grant_type` and
`refresh_token` — no `client_id`. -/
def refreshTokensRequest (refreshToken : String) : HttpRequestModel :=
  { method := "POST"
    contentType := "application/x-www-form-urlencoded"
    accept := "application/json"
    bodyParams := [("grant_type", "refresh_token"), ("refresh_token", refreshToken)] }

/-- The re-authentication hint appended to every error raised by the
legacy `refreshTokens`. -/
def reauthHint (serverUrl profileName : String) : String :=
  "Please re-authenticate with: mcpc " ++ serverUrl ++ " auth --profile " ++ profileName

/-- Tokens as returned by the legacy `refreshTokens` (snake_case, with
the computed `expires_at`). -/
structure OAuthTokens where
  access_token : String
  token_type : String
  expires_in : Option Int
  expires_at : Option Int
  refresh_token : Option String
  scope : Option String
deriving Repr, DecidableEq

/-- Response handling of the legacy `refreshTokens`
(`src/lib/auth/token-refresh.ts` lines 103–142): on success builds the
token object (`token_type || 'Bearer'`, `expires_at = now + expires_in`,
falling back to the stored refresh token); 400/401 raise `AuthError`
with the re-authentication hint. -/
def refreshTokensResult (serverUrl profileName storedRefreshToken : String)
    (nowSec : Int) (status : Nat) (statusText : String)
    (tokenResponse : OAuthTokenResponse) : Except CliError OAuthTokens :=
  if 200 ≤ status ∧ status < 300 then
    .ok { access_token := tokenResponse.access_token
          token_type :=
            if tokenResponse.token_type = "" then "Bearer" else tokenResponse.token_type
          expires_in := tokenResponse.expires_in
          expires_at := tokenResponse.expires_in.map (fun e => nowSec + e)
          refresh_token := some (match tokenResponse.refresh_token with
            | some rt => if rt = "" then storedRefreshToken else rt
            | none => storedRefreshToken)
          scope := tokenResponse.scope }
  else if status = 400 ∨ status = 401 then
    .error (.authError ("Refresh token is invalid or expired. " ++
      reauthHint serverUrl profileName))
  else
    .error (.authError ("Failed to refresh token: " ++ toString status ++ " " ++
      statusText ++ ". " ++ reauthHint serverUrl profileName))

/-- The message of an error result (empty on success). -/
def exceptErrMessage {α : Type} : Except CliError α → String
  | .error e => e.message
  | .ok _ => ""

lemma isPrefixOf_append (pat l₁ l₂ : List Char) (h : pat.isPrefixOf l₁ = true) :
    pat.isPrefixOf (l₁ ++ l₂) = true := by
  induction pat generalizing l₁ with
  | nil => simp [List.isPrefixOf]
  | cons p ps ih =>
    cases l₁ with
    | nil => simp [List.isPrefixOf] at h
    | cons a l =>
      simp only [List.isPrefixOf, List.cons_append, Bool.and_eq_true] at h ⊢
      exact ⟨h.1, ih l h.2⟩

lemma containsSub_append_left (l₁ l₂ pat : List Char)
    (h : containsSub l₁ pat = true) : containsSub (l₁ ++ l₂) pat = true := by
  induction l₁ with
  | nil =>
    have hpat : pat = [] := by simpa [containsSub] using h
    subst hpat
    cases l₂ with
    | nil => rfl
    | cons c t => simp [containsSub, List.isPrefixOf]
  | cons c t ih =>
    simp only [containsSub, Bool.or_eq_true] at h
    rcases h with h | h
    · simp only [List.cons_append, containsSub, Bool.or_eq_true]
      exact Or.inl (isPrefixOf_append pat (c :: t) l₂ h)
    · simp only [List.cons_append, containsSub, Bool.or_eq_true]
      exact Or.inr (ih h)

lemma strContains_append_left (a b pat : String) (h : strContains a pat = true) :
    strContains (a ++ b) pat = true := by
  unfold strContains at *
  have hl : (a ++ b).toList = a.toList ++ b.toList := by
    simp [String.toList, String.data_append]
  rw [hl]
  exact containsSub_append_left a.toList b.toList pat.toList h

lemma reauthHint_contains (serverUrl profileName : String) :
    strContains (reauthHint serverUrl profileName) "re-authenticate" = true := by
  unfold reauthHint
  apply strContains_append_left
  apply strContains_append_left
  apply strContains_append_left
  decide

/-- C6 counterexample: the legacy `refreshTokens` builds a refresh
request whose body has no `client_id` parameter, and a 400 response on
the oauth-utils path raises an `AuthError` whose message carries no
re-authenticate hint — so no single refresh path satisfies the claim's
conjunction. -/
theorem oauth_refresh_claim_counterexample :
    ((refreshTokensRequest "rt0").bodyParams.map Prod.fst).contains "client_id" = false ∧
    strContains
      (exceptErrMessage (refreshAccessTokenResult 400 "Bad Request"
        ⟨"", "", none, none, none⟩))
      "re-authenticate" = false := by
  constructor <;> decide

/-- C6 (amended): a refresh through the oauth-utils `refreshAccessToken`
is a POST with Content-Type application/x-www-form-urlencoded whose
body contains exactly `grant_type=refresh_token`, the stored refresh
token and the stored client id, and a 400/401 response raises
`AuthError("Refresh token is invalid or expired")` (without an inline
re-authenticate hint); the legacy `refreshTokens` sends only
`grant_type` and `refresh_token` — no `client_id` — and its 400/401
`AuthError` carries the invalid-or-expired message together with the
re-authenticate hint. -/
theorem oauth_refresh_paths_spec
    (rt cid serverUrl profileName statusText : String) (status : Nat) (nowSec : Int)
    (body : OAuthTokenResponse) (h400 : status = 400 ∨ status = 401) :
    refreshAccessTokenRequest rt cid =
      { method := "POST"
        contentType := "application/x-www-form-urlencoded"
        accept := "application/json"
        bodyParams := [("grant_type", "refresh_token"), ("refresh_token", rt),
          ("client_id", cid)] } ∧
    refreshAccessTokenResult status statusText body =
      .error (.authError "Refresh token is invalid or expired") ∧
    refreshTokensRequest rt =
      { method := "POST"
        contentType := "application/x-www-form-urlencoded"
        accept := "application/json"
        bodyParams := [("grant_type", "refresh_token"), ("refresh_token", rt)] } ∧
    refreshTokensResult serverUrl profileName rt nowSec status statusText body =
      .error (.authError ("Refresh token is invalid or expired. " ++
        reauthHint serverUrl profileName)) ∧
    strContains
      (exceptErrMessage (refreshTokensResult serverUrl profileName rt nowSec status
        statusText body)) "re-authenticate" = true := by
  have hnot : ¬ (200 ≤ status ∧ status < 300) := by
    rcases h400 with h | h <;> omega
  have h1 : refreshAccessTokenResult status statusText body =
      .error (.authError "Refresh token is invalid or expired") := by
    simp [refreshAccessTokenResult, hnot, h400]
  have h2 : refreshTokensResult serverUrl profileName rt nowSec status statusText body =
      .error (.authError ("Refresh token is invalid or expired. " ++
        reauthHint serverUrl profileName)) := by
    simp [refreshTokensResult, hnot, h400]
  refine ⟨rfl, h1, rfl, h2, ?_⟩
  rw [h2]
  show strContains ("Refresh token is invalid or expired. " ++
    reauthHint serverUrl profileName) "re-authenticate" = true
  have hsuffix := reauthHint_contains serverUrl profileName
  unfold strContains at hsuffix ⊢
  have hl : ("Refresh token is invalid or expired. " ++
      reauthHint serverUrl profileName).toList =
      "Refresh token is invalid or expired. ".toList ++
        (reauthHint serverUrl profileName).toList := by
    simp [String.toList, String.data_append]
  rw [hl]
  exact containsSub_append_right _ _ _ hsuffix

/-- C6 witness for the amended claim: a 400 response on both paths. -/
theorem oauth_refresh_paths_spec_witness :
    refreshAccessTokenRequest "rt0" "cid0" =
      { method := "POST"
        contentType := "application/x-www-form-urlencoded"
        accept := "application/json"
        bodyParams := [("grant_type", "refresh_token"), ("refresh_token", "rt0"),
          ("client_id", "cid0")] } ∧
    refreshAccessTokenResult 400 "Bad Request" ⟨"", "", none, none, none⟩ =
      .error (.authError "Refresh token is invalid or expired") ∧
    refreshTokensRequest "rt0" =
      { method := "POST"
        contentType := "application/x-www-form-urlencoded"
        accept := "application/json"
        bodyParams := [("grant_type", "refresh_token"), ("refresh_token", "rt0")] } ∧
    refreshTokensResult "https://mcp.example.com" "default" "rt0" 1700 400 "Bad Request"
        ⟨"", "", none, none, none⟩ =
      .error (.authError ("Refresh token is invalid or expired. " ++
        reauthHint "https://mcp.example.com" "default")) ∧
    strContains
      (exceptErrMessage (refreshTokensResult "https://mcp.example.com" "default" "rt0"
        1700 400 "Bad Request" ⟨"", "", none, none, none⟩)) "re-authenticate" = true :=
  oauth_refresh_paths_spec "rt0" "cid0" "https://mcp.example.com" "default"
    "Bad Request" 400 1700 ⟨"", "", none, none, none⟩ (Or.inl rfl)

end Mcpc
